import Mathlib

/-!
Shallow embedding of the pyHS100 fork's two source files,
`pyHS100/smartmultiplug.py` (class `SmartMultiPlug`) and
`pyHS100/smartstrip.py` (class `SmartStrip`), together with
spec-modelled stubs for the `SmartPlug` outlet-proxy class, which is part
of the repository but not among the given source files.

Conventions of the embedding:
- a Python sys-info dictionary becomes the structure `SysInfo`; a child
  record of `sys_info["children"]` becomes `ChildRecord`;
- transport writes (`_query_helper(module, action, params)`) are traced as
  `Command` values; an operation that can raise returns `Except PyError _`,
  paired with the list of commands it issued when the trace matters;
- Python integers are `Int`; Python dict results keyed by plug position
  become association lists `List (Nat × _)` built over `List.range`,
  mirroring the source's `for plug in range(self.num_children)` loops;
- `str.upper()` and `str.split(':')` are re-implemented structurally over
  `List Char` so that every definition reduces in the kernel.
-/

namespace PyHS100

/-- Child record inside `sys_info["children"]`: the fields the two source
files read (`id`, `state`, `relay_state`, `on_time`). -/
structure ChildRecord where
  id : String
  state : Int
  relay_state : Int
  on_time : Int
deriving DecidableEq

instance : Inhabited ChildRecord := ⟨⟨"", 0, 0, 0⟩⟩

/-- The raw status record `self.sys_info`, restricted to the fields the two
source files read. -/
structure SysInfo where
  relay_state : Int
  led_off : Int
  feature : String
  children : List ChildRecord
deriving DecidableEq

/-- A Python value passed to the `state` setters: the source first checks
`isinstance(value, str)`, so non-string inputs must be representable. -/
inductive PyValue where
  | str (s : String)
  | int (n : Int)
  | pyNone
deriving DecidableEq

/-- The exception classes the embedded code can raise:
`ValueError` (invalid state token), `SmartStripException` (bad plug index),
and `TypeError` (subscripting the `None` returned by `_get_idx_info`). -/
inductive PyError where
  | valueError (msg : String)
  | smartStripException (msg : String)
  | typeError (msg : String)
deriving DecidableEq

/-- One transport write `_query_helper(module, action, params)`, tagged with
the issuing device's context (`none` for the parent device, `some childId`
for an outlet proxy). -/
structure Command where
  context : Option String
  module : String
  action : String
  params : List (String × Int)
deriving DecidableEq

/-- The literal command `set_relay_state {state: s}` on module `system`. -/
def set_relay_state_cmd (ctx : Option String) (s : Int) : Command :=
  ⟨ctx, "system", "set_relay_state", [("state", s)]⟩

/-- The literal command `get_realtime {}` on module `emeter`. -/
def get_realtime_cmd (ctx : Option String) : Command :=
  ⟨ctx, "emeter", "get_realtime", []⟩

/-- `SmartMultiPlug.SWITCH_STATE_ON`. -/
def SWITCH_STATE_ON : String := "ON"

/-- `SmartMultiPlug.SWITCH_STATE_OFF`. -/
def SWITCH_STATE_OFF : String := "OFF"

/-- `SmartMultiPlug.SWITCH_STATE_UNKNOWN`. -/
def SWITCH_STATE_UNKNOWN : String := "UNKNOWN"

/-- Modelled from the spec: `SmartDevice.FEATURE_ENERGY_METER`, the
energy-meter capability marker token (the `SmartDevice` base class is not
among the given source files; the marker's concrete spelling is irrelevant
to every claim, which quantify over the feature string). -/
def FEATURE_ENERGY_METER : String := "ENE"

/-- Python `str.upper()` restricted to its ASCII action, re-implemented
structurally: uppercase each character. -/
def pyUpper (s : String) : String := String.mk (s.toList.map Char.toUpper)

/-- Helper for `py_split`: split a character list at every separator,
keeping empty segments, as Python `str.split(sep)` does. -/
def split_chars (sep : Char) : List Char → List (List Char)
  | [] => [[]]
  | c :: cs =>
    match split_chars sep cs with
    | [] => if c = sep then [[], [c]] else [[c]]
    | h :: t => if c = sep then [] :: h :: t else (c :: h) :: t

/-- Python `s.split(sep)` for a one-character separator, re-implemented
structurally (`"".split(':') == ['']`, separators at the ends yield empty
segments). -/
def py_split (s : String) (sep : Char) : List String :=
  (split_chars sep s.toList).map String.mk

/-- Modelled from the spec: `SmartDevice.num_children` (base class not among
the given source files); the spec fixes outlet count as the length of the
`children` list. -/
def num_children (info : SysInfo) : Nat := info.children.length

/-- Embeds `SmartMultiPlug.has_emeter` (smartmultiplug.py lines 106-114):
split the `feature` field on `':'` and test membership of the marker.
Per the spec the strip inherits the identical rule from `SmartPlug`. -/
def has_emeter (info : SysInfo) : Bool :=
  (py_split info.feature ':').contains FEATURE_ENERGY_METER

/-- Embeds `SmartMultiPlug.state` (read), smartmultiplug.py lines 40-59:
`0 → OFF`, `1 → ON` (via `elif`), anything else `→ UNKNOWN`. -/
def SmartMultiPlug.state_read (info : SysInfo) : String :=
  if info.relay_state = 0 then SWITCH_STATE_OFF
  else if info.relay_state = 1 then SWITCH_STATE_ON
  else SWITCH_STATE_UNKNOWN

/-- Embeds the per-child decoding inside `SmartStrip.state` (read),
smartstrip.py lines 72-80. The source's second branch is a plain
`if`/`else`, not `elif`: it reassigns `switch_state` unconditionally, so the
value set by the `relay_state == 0` branch is always overwritten. The
rebound `let`s mirror the sequential Python assignments (`none` stands for
the still-unassigned variable). -/
def SmartStrip.decode_child_state (relay_state : Int) : String :=
  let switch_state : Option String := none
  let switch_state := if relay_state = 0 then some SWITCH_STATE_OFF else switch_state
  let switch_state := if relay_state = 1 then some SWITCH_STATE_ON
                      else some SWITCH_STATE_UNKNOWN
  switch_state.getD SWITCH_STATE_UNKNOWN

/-- Embeds `SmartStrip.state` (read), smartstrip.py lines 58-84: for each
`plug in range(num_children)`, decode `children[plug]["state"]`. -/
def SmartStrip.state_read (info : SysInfo) : List (Nat × String) :=
  (List.range (num_children info)).map fun plug =>
    (plug, SmartStrip.decode_child_state ((info.children.getD plug default).state))

/-- Embeds `SmartMultiPlug.turn_on` (lines 125-131): one
`set_relay_state {state: 1}` command, unscoped. -/
def SmartMultiPlug.turn_on : List Command := [set_relay_state_cmd none 1]

/-- Embeds `SmartMultiPlug.turn_off` (lines 133-139): one
`set_relay_state {state: 0}` command, unscoped. -/
def SmartMultiPlug.turn_off : List Command := [set_relay_state_cmd none 0]

/-- Embeds `SmartMultiPlug.state` (setter), smartmultiplug.py lines 61-80:
non-string input raises `ValueError`; `value.upper()` is matched against
`ON` then `OFF`; any other string raises `ValueError`; on success the
commands of `turn_on`/`turn_off` are issued. -/
def SmartMultiPlug.state_write (value : PyValue) : Except PyError (List Command) :=
  match value with
  | .str s =>
      if pyUpper s = SWITCH_STATE_ON then .ok SmartMultiPlug.turn_on
      else if pyUpper s = SWITCH_STATE_OFF then .ok SmartMultiPlug.turn_off
      else .error (.valueError "State is not valid.")
  | _ => .error (.valueError "State must be str.")

/-- Embeds `SmartMultiPlug.is_on` (lines 116-123):
`bool(self.sys_info['relay_state'])`. -/
def SmartMultiPlug.is_on (info : SysInfo) : Bool := info.relay_state != 0

/-- Embeds the last-two-characters slice `info['id'][-2:]` used by
`_get_idx_info` (a slice of a shorter string is the whole string). -/
def last_two (s : String) : String :=
  String.mk (s.toList.drop (s.toList.length - 2))

/-- Embeds Python `int(text)` restricted to unsigned decimal numerals, the
only shape the child-id suffixes take; any other text yields `none` (where
CPython would raise `ValueError`). -/
def py_int_of_string (s : String) : Option Int :=
  if s.toList ≠ [] ∧ s.toList.all Char.isDigit then
    some (s.toList.foldl (fun acc c => acc * 10 + ((c.toNat : Int) - 48)) 0)
  else none

/-- Embeds `SmartMultiPlug._get_idx_info` (lines 172-181): the first child
whose id's last two characters, read as an integer, equal the argument;
`None` when no child matches. -/
def SmartMultiPlug.get_idx_info (info : SysInfo) (id : Int) : Option ChildRecord :=
  info.children.find? fun c => py_int_of_string (last_two c.id) == some id

/-- Embeds `SmartMultiPlug.on_since` (lines 161-170). The `idx` argument is
ignored by the source: the body calls `self._get_idx_info(0)`. When the
lookup returns `None`, the subscription `id_info["on_time"]` raises a
`TypeError`. `now` stands for `datetime.datetime.now()` in seconds; the
result is `now - timedelta(seconds=on_time)`. -/
def SmartMultiPlug.on_since (info : SysInfo) (now : Int) (idx : Int) : Except PyError Int :=
  match SmartMultiPlug.get_idx_info info 0 with
  | some c => .ok (now - c.on_time)
  | none => .error (.typeError "NoneType object is not subscriptable")

/-- Modelled from the spec: the Outlet Proxy class `SmartPlug` (part of the
repository but not among the given source files). Its `set_state` encodes
the value case-insensitively against `ON`/`OFF`, raising `ValueError`
before any command on a mismatch or a non-string, and on success issues one
`set_relay_state` command scoped to the proxy's context. -/
def SmartPlug.set_state (ctx : Option String) (value : PyValue) : Except PyError (List Command) :=
  match value with
  | .str s =>
      if pyUpper s = SWITCH_STATE_ON then .ok [set_relay_state_cmd ctx 1]
      else if pyUpper s = SWITCH_STATE_OFF then .ok [set_relay_state_cmd ctx 0]
      else .error (.valueError "State is not valid.")
  | _ => .error (.valueError "State must be str.")

/-- Modelled from the spec: the Outlet Proxy's `on_since` computes
`now - duration(on_time seconds)`, a real timestamp, from its own freshly
fetched child record. -/
def SmartPlug.on_since (now on_time : Int) : Int := now - on_time

/-- The strip's `plugs` dict entry for key `i`, reduced to its `context`
value: `children[i]["id"]`, as assigned in `SmartStrip.__init__`
(smartstrip.py lines 41-45). -/
def SmartStrip.plug_context (info : SysInfo) (i : Nat) : Option String :=
  (info.children.get? i).map ChildRecord.id

/-- The exception raised by `raise_for_index`. -/
def out_of_bounds_error : PyError :=
  .smartStripException "plug index is out of bounds"

/-- Embeds `SmartStrip.raise_for_index` (smartstrip.py lines 47-56):
`index not in self.plugs` raises; the `plugs` dict built by `__init__` has
exactly the keys `0 .. num_children - 1`. -/
def SmartStrip.raise_for_index (info : SysInfo) (index : Int) : Except PyError Unit :=
  if 0 ≤ index ∧ index < (num_children info : Int) then .ok ()
  else .error out_of_bounds_error

/-- Embeds `SmartStrip.state` (setter), smartstrip.py lines 86-105: same
validation as the single-relay setter, then the strip's own
`turn_on()`/`turn_off()` (index `-1`), which issue the whole-strip
`set_relay_state` command with no proxy context. -/
def SmartStrip.state_write (value : PyValue) : Except PyError (List Command) :=
  match value with
  | .str s =>
      if pyUpper s = SWITCH_STATE_ON then .ok [set_relay_state_cmd none 1]
      else if pyUpper s = SWITCH_STATE_OFF then .ok [set_relay_state_cmd none 0]
      else .error (.valueError "State is not valid.")
  | _ => .error (.valueError "State must be str.")

/-- Embeds `SmartStrip.set_state` (lines 107-123): `index < 0` runs the
strip's own state setter; otherwise `raise_for_index` then delegation to
`self.plugs[index].set_state(value)`. The second component is the command
trace (empty when an exception is raised, since every raise happens before
any command). -/
def SmartStrip.set_state (info : SysInfo) (value : PyValue) (index : Int) :
    Except PyError Unit × List Command :=
  if index < 0 then
    match SmartStrip.state_write value with
    | .ok cmds => (.ok (), cmds)
    | .error e => (.error e, [])
  else
    match SmartStrip.raise_for_index info index with
    | .error e => (.error e, [])
    | .ok () =>
        match SmartPlug.set_state (SmartStrip.plug_context info index.toNat) value with
        | .ok cmds => (.ok (), cmds)
        | .error e => (.error e, [])

/-- Embeds `SmartStrip.turn_on` (lines 142-153): `index < 0` issues the
whole-strip command; otherwise validate then delegate to the proxy, whose
command carries the proxy's context. -/
def SmartStrip.turn_on (info : SysInfo) (index : Int) :
    Except PyError Unit × List Command :=
  if index < 0 then (.ok (), [set_relay_state_cmd none 1])
  else
    match SmartStrip.raise_for_index info index with
    | .error e => (.error e, [])
    | .ok () => (.ok (), [set_relay_state_cmd (SmartStrip.plug_context info index.toNat) 1])

/-- Embeds `SmartStrip.turn_off` (lines 155-166), symmetric to `turn_on`. -/
def SmartStrip.turn_off (info : SysInfo) (index : Int) :
    Except PyError Unit × List Command :=
  if index < 0 then (.ok (), [set_relay_state_cmd none 0])
  else
    match SmartStrip.raise_for_index info index with
    | .error e => (.error e, [])
    | .ok () => (.ok (), [set_relay_state_cmd (SmartStrip.plug_context info index.toNat) 0])

/-- Result of `SmartStrip.is_on`: a per-plug mapping without an index, a
single boolean with one. -/
inductive IsOnResult where
  | mapping (m : List (Nat × Bool))
  | single (b : Bool)
deriving DecidableEq

/-- Embeds `SmartStrip.is_on` (lines 125-140): `index < 0` builds
`{plug: bool(children[plug]["relay_state"])}` from a fresh record;
otherwise validate then delegate to the proxy's `is_on()`, modelled by
`proxy_is_on` (the proxy's own fresh fetch). -/
def SmartStrip.is_on (info : SysInfo) (proxy_is_on : Nat → Bool) (index : Int) :
    Except PyError IsOnResult :=
  if index < 0 then
    .ok (.mapping ((List.range (num_children info)).map fun plug =>
      (plug, (info.children.getD plug default).relay_state != 0)))
  else
    match SmartStrip.raise_for_index info index with
    | .error e => .error e
    | .ok () => .ok (.single (proxy_is_on index.toNat))

/-- Result of `SmartStrip.on_since`: a per-plug mapping of raw `on_time`
seconds without an index, a computed timestamp with one. -/
inductive OnSinceResult where
  | mapping (m : List (Nat × Int))
  | timestamp (t : Int)
deriving DecidableEq

/-- Embeds `SmartStrip.on_since` (lines 168-184): `index < 0` builds
`{plug: children[plug]["on_time"]}` — the raw seconds figure; otherwise
validate then delegate to the proxy's `on_since` (a timestamp), with
`proxy_on_time p` modelling plug `p`'s own fresh fetch of its `on_time`. -/
def SmartStrip.on_since (info : SysInfo) (now : Int) (proxy_on_time : Nat → Int)
    (index : Int) : Except PyError OnSinceResult :=
  if index < 0 then
    .ok (.mapping ((List.range (num_children info)).map fun plug =>
      (plug, (info.children.getD plug default).on_time)))
  else
    match SmartStrip.raise_for_index info index with
    | .error e => .error e
    | .ok () => .ok (.timestamp (SmartPlug.on_since now (proxy_on_time index.toNat)))

/-- Result of `SmartStrip.get_emeter_realtime`: `None` when the device has
no energy meter, a per-plug mapping of readings without an index, one
reading with an index. -/
inductive EmeterResult where
  | unavailable
  | mapping (m : List (Nat × Int))
  | single (r : Int)
deriving DecidableEq

/-- Embeds `SmartStrip.get_emeter_realtime` (lines 200-223): `None`
immediately when `has_emeter` is false; `index < 0` delegates to every
proxy in turn (`proxy_reading p` models plug `p`'s transport reading, its
command traced with the proxy's context); otherwise validate then delegate
to one proxy. -/
def SmartStrip.get_emeter_realtime (info : SysInfo) (proxy_reading : Nat → Int)
    (index : Int) : Except PyError EmeterResult × List Command :=
  if has_emeter info = false then (.ok .unavailable, [])
  else if index < 0 then
    (.ok (.mapping ((List.range (num_children info)).map fun p => (p, proxy_reading p))),
     (List.range (num_children info)).map fun p =>
       get_realtime_cmd (SmartStrip.plug_context info p))
  else
    match SmartStrip.raise_for_index info index with
    | .error e => (.error e, [])
    | .ok () =>
        (.ok (.single (proxy_reading index.toNat)),
         [get_realtime_cmd (SmartStrip.plug_context info index.toNat)])

/-- Sample one-outlet strip record used by concrete evaluations: a single
child `PLUG00` that is on. -/
def sampleStrip1 : SysInfo := ⟨1, 0, "TIM", [⟨"PLUG00", 1, 1, 0⟩]⟩

/-- Claim C1: the single-relay state read maps relay value 0 to OFF, 1 to
ON and everything else to UNKNOWN, as claimed; but the strip's aggregate
state read decodes a child whose relay field is 0 to UNKNOWN, not OFF — the
source's second branch is `if`/`else` rather than `elif`, so the OFF
assignment is always overwritten. -/
theorem C1_strip_decodes_zero_as_unknown :
    SmartMultiPlug.state_read ⟨0, 0, "", []⟩ = SWITCH_STATE_OFF ∧
    SmartMultiPlug.state_read ⟨1, 0, "", []⟩ = SWITCH_STATE_ON ∧
    SmartMultiPlug.state_read ⟨2, 0, "", []⟩ = SWITCH_STATE_UNKNOWN ∧
    SmartStrip.state_read ⟨1, 0, "", [⟨"PLUG00", 0, 0, 0⟩]⟩ =
      [(0, SWITCH_STATE_UNKNOWN)] :=
  ⟨rfl, rfl, rfl, rfl⟩

/-- Claim C3: the claim says the two decoders agree on every raw relay
value; they disagree at 0, where the single-relay read yields OFF while the
strip's per-child decoding yields UNKNOWN. -/
theorem C3_decoders_disagree_at_zero :
    SmartMultiPlug.state_read ⟨0, 0, "", []⟩ = SWITCH_STATE_OFF ∧
    SmartStrip.decode_child_state 0 = SWITCH_STATE_UNKNOWN :=
  ⟨rfl, rfl⟩

/-- Claim C4: the claim says on_since(childIndex) uses the child with
derived index childIndex and raises ChildNotFoundError on a miss; the
source ignores its index argument and always looks up derived index 0
(here on_since(1) returns 1000 − 100 from child `...00`, not 1000 − 200
from child `...01`), and when no child has derived index 0 the `None`
returned by `_get_idx_info` is subscripted, raising a TypeError. -/
theorem C4_on_since_ignores_index :
    SmartMultiPlug.on_since
        ⟨1, 0, "", [⟨"PLUG00", 1, 1, 100⟩, ⟨"PLUG01", 1, 1, 200⟩]⟩ 1000 1 =
      .ok 900 ∧
    SmartMultiPlug.on_since ⟨1, 0, "", [⟨"PLUG07", 1, 1, 300⟩]⟩ 1000 0 =
      .error (.typeError "NoneType object is not subscriptable") :=
  ⟨rfl, rfl⟩

/-- Claim C2, counterexample: on a one-outlet strip, setState("OFF", -2)
does not raise an OutletRangeError — every negative index selects the
aggregate path, so the call succeeds and issues the whole-strip command. -/
theorem C2_counterexample_neg_two_aggregates :
    SmartStrip.set_state sampleStrip1 (.str "OFF") (-2) =
      (.ok (), [set_relay_state_cmd none 0]) := by
  rfl

/-- Claim C2, amended: for every Strip operation taking an outlet index,
every negative index (not -1 alone) selects the aggregate form, behaving
exactly as index -1; every index ≥ numOutlets fails with the
OutletRangeError (SmartStripException) and an empty command trace — for
getEnergyRealtime only when the energy-meter capability is present, since
the capability check precedes index validation (otherwise it returns None
with no command). -/
theorem C2_index_dispatch (info : SysInfo) (v : PyValue) (now : Int)
    (pion : Nat → Bool) (pot : Nat → Int) (prd : Nat → Int) (i : Int) :
    (i < 0 →
      SmartStrip.set_state info v i = SmartStrip.set_state info v (-1) ∧
      SmartStrip.turn_on info i = SmartStrip.turn_on info (-1) ∧
      SmartStrip.turn_off info i = SmartStrip.turn_off info (-1) ∧
      SmartStrip.is_on info pion i = SmartStrip.is_on info pion (-1) ∧
      SmartStrip.on_since info now pot i = SmartStrip.on_since info now pot (-1) ∧
      SmartStrip.get_emeter_realtime info prd i =
        SmartStrip.get_emeter_realtime info prd (-1)) ∧
    ((num_children info : Int) ≤ i →
      SmartStrip.set_state info v i = (.error out_of_bounds_error, []) ∧
      SmartStrip.turn_on info i = (.error out_of_bounds_error, []) ∧
      SmartStrip.turn_off info i = (.error out_of_bounds_error, []) ∧
      SmartStrip.is_on info pion i = .error out_of_bounds_error ∧
      SmartStrip.on_since info now pot i = .error out_of_bounds_error ∧
      (has_emeter info = true →
        SmartStrip.get_emeter_realtime info prd i = (.error out_of_bounds_error, [])) ∧
      (has_emeter info = false →
        SmartStrip.get_emeter_realtime info prd i = (.ok .unavailable, []))) := by
  constructor
  · intro hi
    have hm : (-1 : Int) < 0 := by norm_num
    refine ⟨?_, ?_, ?_, ?_, ?_, ?_⟩ <;>
      simp [SmartStrip.set_state, SmartStrip.turn_on, SmartStrip.turn_off,
        SmartStrip.is_on, SmartStrip.on_since, SmartStrip.get_emeter_realtime, hi, hm]
  · intro hn
    have h0 : ¬ i < 0 := by omega
    have hr : SmartStrip.raise_for_index info i = .error out_of_bounds_error := by
      unfold SmartStrip.raise_for_index
      rw [if_neg]
      omega
    refine ⟨?_, ?_, ?_, ?_, ?_, ?_, ?_⟩
    · simp [SmartStrip.set_state, h0, hr]
    · simp [SmartStrip.turn_on, h0, hr]
    · simp [SmartStrip.turn_off, h0, hr]
    · simp [SmartStrip.is_on, h0, hr]
    · simp [SmartStrip.on_since, h0, hr]
    · intro he
      simp [SmartStrip.get_emeter_realtime, he, h0, hr]
    · intro he
      simp [SmartStrip.get_emeter_realtime, he]

/-- Witness for C2_index_dispatch on the sample one-outlet strip: index -2
behaves as the aggregate index -1 for turn_on, and index 5 fails the bound
check for is_on. -/
theorem C2_index_dispatch_witness :
    SmartStrip.turn_on sampleStrip1 (-2) = SmartStrip.turn_on sampleStrip1 (-1) ∧
    SmartStrip.is_on sampleStrip1 (fun _ => true) 5 = .error out_of_bounds_error := by
  constructor
  · exact ((C2_index_dispatch sampleStrip1 (.str "OFF") 0 (fun _ => true)
      (fun _ => 0) (fun _ => 0) (-2)).1 (by norm_num)).2.1
  · exact ((C2_index_dispatch sampleStrip1 (.str "OFF") 0 (fun _ => true)
      (fun _ => 0) (fun _ => 0) 5).2 (by decide)).2.2.2.1

/-- The OFF and ON tokens are distinct strings. -/
theorem off_ne_on : SWITCH_STATE_OFF ≠ SWITCH_STATE_ON := by decide

/-- Claim C5: for a valid state token, setState(value, -1) issues exactly
one command, unscoped (context none — no proxy involved); setState(value,
i) for valid i issues exactly one command, scoped to outlet i's context
(children[i].id), so no other outlet is addressed. -/
theorem C5_set_state_commands (info : SysInfo) (s : String) (i : Int)
    (hs : pyUpper s = SWITCH_STATE_ON ∨ pyUpper s = SWITCH_STATE_OFF) :
    ((SmartStrip.set_state info (.str s) (-1)).2.length = 1 ∧
      ∀ c ∈ (SmartStrip.set_state info (.str s) (-1)).2,
        c.context = none ∧ c.module = "system" ∧ c.action = "set_relay_state") ∧
    (0 ≤ i → i < (num_children info : Int) →
      (SmartStrip.set_state info (.str s) i).2.length = 1 ∧
      ∀ c ∈ (SmartStrip.set_state info (.str s) i).2,
        c.context = SmartStrip.plug_context info i.toNat ∧
        c.module = "system" ∧ c.action = "set_relay_state") := by
  have hm : (-1 : Int) < 0 := by norm_num
  constructor
  · rcases hs with h | h
    · simp [SmartStrip.set_state, SmartStrip.state_write, hm, h, set_relay_state_cmd]
    · simp [SmartStrip.set_state, SmartStrip.state_write, hm, h, off_ne_on,
        set_relay_state_cmd]
  · intro hi0 hin
    have h0 : ¬ i < 0 := by omega
    have hr : SmartStrip.raise_for_index info i = .ok () := by
      unfold SmartStrip.raise_for_index
      rw [if_pos ⟨hi0, hin⟩]
    rcases hs with h | h
    · simp [SmartStrip.set_state, SmartPlug.set_state, h0, hr, h, set_relay_state_cmd]
    · simp [SmartStrip.set_state, SmartPlug.set_state, h0, hr, h, off_ne_on,
        set_relay_state_cmd]

/-- Witness for C5_set_state_commands: the value OFF on the sample strip at
index -1 and at index 0 each issue exactly one command. -/
theorem C5_set_state_commands_witness :
    (SmartStrip.set_state sampleStrip1 (.str "OFF") (-1)).2.length = 1 ∧
    (SmartStrip.set_state sampleStrip1 (.str "OFF") 0).2.length = 1 := by
  constructor
  · exact (C5_set_state_commands sampleStrip1 "OFF" 0 (Or.inr (by decide))).1.1
  · exact ((C5_set_state_commands sampleStrip1 "OFF" 0
      (Or.inr (by decide))).2 (by norm_num) (by decide)).1

/-- Claim C6: on both devices the state setter rejects every value that is
not a string whose uppercasing is ON or OFF with a ValueError (the
embedding issues commands only on the `.ok` branch, so a rejected value
issues none); a string uppercasing to ON issues the turn-on command, one
uppercasing to OFF the turn-off command. -/
theorem C6_state_write_validation (v : PyValue) :
    ((∀ s, v = .str s → pyUpper s ≠ SWITCH_STATE_ON → pyUpper s ≠ SWITCH_STATE_OFF →
        (∃ m, SmartMultiPlug.state_write v = .error (.valueError m)) ∧
        (∃ m, SmartStrip.state_write v = .error (.valueError m))) ∧
      ((∀ s, v ≠ .str s) →
        (∃ m, SmartMultiPlug.state_write v = .error (.valueError m)) ∧
        (∃ m, SmartStrip.state_write v = .error (.valueError m)))) ∧
    (∀ s, v = .str s → pyUpper s = SWITCH_STATE_ON →
      SmartMultiPlug.state_write v = .ok [set_relay_state_cmd none 1] ∧
      SmartStrip.state_write v = .ok [set_relay_state_cmd none 1]) ∧
    (∀ s, v = .str s → pyUpper s = SWITCH_STATE_OFF →
      SmartMultiPlug.state_write v = .ok [set_relay_state_cmd none 0] ∧
      SmartStrip.state_write v = .ok [set_relay_state_cmd none 0]) := by
  refine ⟨⟨?_, ?_⟩, ?_, ?_⟩
  · rintro s rfl h1 h2
    exact ⟨⟨"State is not valid.", by simp [SmartMultiPlug.state_write, h1, h2]⟩,
      ⟨"State is not valid.", by simp [SmartStrip.state_write, h1, h2]⟩⟩
  · intro hns
    cases v with
    | str s => exact absurd rfl (hns s)
    | int n => exact ⟨⟨_, rfl⟩, ⟨_, rfl⟩⟩
    | pyNone => exact ⟨⟨_, rfl⟩, ⟨_, rfl⟩⟩
  · rintro s rfl h
    exact ⟨by simp [SmartMultiPlug.state_write, SmartMultiPlug.turn_on, h],
      by simp [SmartStrip.state_write, h]⟩
  · rintro s rfl h
    exact ⟨by simp [SmartMultiPlug.state_write, SmartMultiPlug.turn_off, h, off_ne_on],
      by simp [SmartStrip.state_write, h, off_ne_on]⟩

/-- Witness for C6_state_write_validation: UNKNOWN is rejected by both
setters, a non-string is rejected, and the lowercase token on is accepted,
issuing the turn-on command. -/
theorem C6_state_write_validation_witness :
    (∃ m, SmartMultiPlug.state_write (.str "UNKNOWN") = .error (.valueError m)) ∧
    (∃ m, SmartStrip.state_write (.int 1) = .error (.valueError m)) ∧
    SmartMultiPlug.state_write (.str "on") = .ok [set_relay_state_cmd none 1] := by
  refine ⟨?_, ?_, ?_⟩
  · exact ((C6_state_write_validation (.str "UNKNOWN")).1.1 "UNKNOWN" rfl
      (by decide) (by decide)).1
  · exact ((C6_state_write_validation (.int 1)).1.2 (by intro s h; cases h)).2
  · exact ((C6_state_write_validation (.str "on")).2.1 "on" rfl (by decide)).1

/-- Claim C7: the strip's on_since at index -1 returns a mapping whose
entry for every outlet position p is p's raw on_time seconds (a mapping,
not a timestamp), while at a valid index ≥ 0 it validates and returns the
proxy's on_since — a computed timestamp now − on_time. -/
theorem C7_on_since_asymmetry (info : SysInfo) (now : Int) (pot : Nat → Int)
    (i : Int) :
    (∃ m, SmartStrip.on_since info now pot (-1) = .ok (.mapping m) ∧
      m.length = num_children info ∧
      ∀ p, p < num_children info →
        m[p]? = some (p, (info.children.getD p default).on_time)) ∧
    (0 ≤ i → i < (num_children info : Int) →
      SmartStrip.on_since info now pot i =
        .ok (.timestamp (now - pot i.toNat))) := by
  constructor
  · refine ⟨(List.range (num_children info)).map
        (fun p => (p, (info.children.getD p default).on_time)), ?_, ?_, ?_⟩
    · simp [SmartStrip.on_since]
    · simp
    · intro p hp
      simp [List.getElem?_map, List.getElem?_range, hp]
  · intro hi0 hin
    have h0 : ¬ i < 0 := by omega
    have hr : SmartStrip.raise_for_index info i = .ok () := by
      unfold SmartStrip.raise_for_index
      rw [if_pos ⟨hi0, hin⟩]
    simp [SmartStrip.on_since, SmartPlug.on_since, h0, hr]

/-- Witness for C7_on_since_asymmetry on the sample one-outlet strip with a
constant proxy on-time of 40 at clock 1000: the aggregate mapping's entry 0
is the raw on_time 0, the delegated call at index 0 is the timestamp 960. -/
theorem C7_on_since_asymmetry_witness :
    (∃ m, SmartStrip.on_since sampleStrip1 1000 (fun _ => 40) (-1) =
        .ok (.mapping m) ∧
      m.length = num_children sampleStrip1 ∧
      ∀ p, p < num_children sampleStrip1 →
        m[p]? = some (p, (sampleStrip1.children.getD p default).on_time)) ∧
    SmartStrip.on_since sampleStrip1 1000 (fun _ => 40) 0 =
      .ok (.timestamp 960) := by
  constructor
  · exact (C7_on_since_asymmetry sampleStrip1 1000 (fun _ => 40) 0).1
  · exact (C7_on_since_asymmetry sampleStrip1 1000 (fun _ => 40) 0).2
      (by norm_num) (by decide)

/-- Claim C8: without the energy-meter marker among the feature tags,
get_emeter_realtime returns None (never an error) for the aggregate and
for any per-index call, with no command issued; with the marker, index -1
returns the mapping outlet → reading built by delegating to every proxy in
turn, one scoped get_realtime command per outlet. -/
theorem C8_emeter_capability_gate (info : SysInfo) (prd : Nat → Int) (i : Int) :
    (has_emeter info = false →
      SmartStrip.get_emeter_realtime info prd (-1) = (.ok .unavailable, []) ∧
      SmartStrip.get_emeter_realtime info prd i = (.ok .unavailable, [])) ∧
    (has_emeter info = true →
      ∃ m, (SmartStrip.get_emeter_realtime info prd (-1)).1 = .ok (.mapping m) ∧
        m.length = num_children info ∧
        (∀ p, p < num_children info → m[p]? = some (p, prd p)) ∧
        (SmartStrip.get_emeter_realtime info prd (-1)).2 =
          (List.range (num_children info)).map fun p =>
            get_realtime_cmd (SmartStrip.plug_context info p)) := by
  constructor
  · intro he
    exact ⟨by simp [SmartStrip.get_emeter_realtime, he],
      by simp [SmartStrip.get_emeter_realtime, he]⟩
  · intro he
    have hm : (-1 : Int) < 0 := by norm_num
    refine ⟨(List.range (num_children info)).map (fun p => (p, prd p)),
      ?_, ?_, ?_, ?_⟩
    · simp [SmartStrip.get_emeter_realtime, he, hm]
    · simp
    · intro p hp
      simp [List.getElem?_map, List.getElem?_range, hp]
    · simp [SmartStrip.get_emeter_realtime, he, hm]

/-- Witness for C8_emeter_capability_gate: the sample strip's feature field
TIM lacks the marker, so the aggregate call is unavailable with no
commands; the same strip with feature ENE:TIM has the marker, and the
aggregate call returns a mapping. -/
theorem C8_emeter_capability_gate_witness :
    SmartStrip.get_emeter_realtime sampleStrip1 (fun _ => 7) (-1) =
      (.ok .unavailable, []) ∧
    (∃ m,
      (SmartStrip.get_emeter_realtime ⟨1, 0, "ENE:TIM", [⟨"PLUG00", 1, 1, 0⟩]⟩
          (fun _ => 7) (-1)).1 = .ok (.mapping m)) := by
  constructor
  · exact ((C8_emeter_capability_gate sampleStrip1 (fun _ => 7) 0).1 (by decide)).1
  · obtain ⟨m, h1, -, -, -⟩ :=
      (C8_emeter_capability_gate ⟨1, 0, "ENE:TIM", [⟨"PLUG00", 1, 1, 0⟩]⟩
        (fun _ => 7) 0).2 (by decide)
    exact ⟨m, h1⟩

/-- Claim C9: the single-relay is_on is true exactly when relay_state is
nonzero, in particular it is true whenever the state read decodes to
UNKNOWN (a value outside 0 and 1); and the strip's aggregate is_on maps
every outlet position p to whether child p's relay_state field is
nonzero. -/
theorem C9_is_on_nonzero (info : SysInfo) (pion : Nat → Bool) :
    (SmartMultiPlug.is_on info = true ↔ info.relay_state ≠ 0) ∧
    (SmartMultiPlug.state_read info = SWITCH_STATE_UNKNOWN →
      SmartMultiPlug.is_on info = true) ∧
    (∃ m, SmartStrip.is_on info pion (-1) = .ok (.mapping m) ∧
      m.length = num_children info ∧
      ∀ p, p < num_children info →
        m[p]? = some (p, (info.children.getD p default).relay_state != 0)) := by
  refine ⟨?_, ?_, ?_⟩
  · simp [SmartMultiPlug.is_on]
  · intro h
    by_contra hoff
    have hz : info.relay_state = 0 ∨ info.relay_state = 1 := by
      by_contra hnz
      push_neg at hnz
      simp [SmartMultiPlug.is_on, hnz.1] at hoff
    rcases hz with hz | hz
    · rw [SmartMultiPlug.state_read, if_pos hz] at h
      exact absurd h (by decide)
    · rw [SmartMultiPlug.state_read, if_neg (by omega), if_pos hz] at h
      exact absurd h (by decide)
  · refine ⟨(List.range (num_children info)).map
        (fun p => (p, (info.children.getD p default).relay_state != 0)), ?_, ?_, ?_⟩
    · simp [SmartStrip.is_on]
    · simp
    · intro p hp
      simp [List.getElem?_map, List.getElem?_range, hp]

/-- Witness for C9_is_on_nonzero at a relay value of 7, which decodes to
UNKNOWN yet reads as on; the sample strip's aggregate entry 0 is true. -/
theorem C9_is_on_nonzero_witness :
    SmartMultiPlug.is_on ⟨7, 0, "", []⟩ = true ∧
    (∃ m, SmartStrip.is_on sampleStrip1 (fun _ => true) (-1) = .ok (.mapping m) ∧
      m.length = num_children sampleStrip1 ∧
      ∀ p, p < num_children sampleStrip1 →
        m[p]? = some (p, (sampleStrip1.children.getD p default).relay_state != 0)) := by
  constructor
  · exact (C9_is_on_nonzero ⟨7, 0, "", []⟩ (fun _ => true)).2.1 (by decide)
  · exact (C9_is_on_nonzero sampleStrip1 (fun _ => true)).2.2

/-- Claim C10: on a strip without the energy-meter marker,
get_emeter_realtime returns None with no command for every index value,
even one far out of range — the capability check precedes index
validation, so no OutletRangeError can arise. -/
theorem C10_no_emeter_skips_validation (info : SysInfo) (prd : Nat → Int)
    (i : Int) (h : has_emeter info = false) :
    SmartStrip.get_emeter_realtime info prd i = (.ok .unavailable, []) := by
  simp [SmartStrip.get_emeter_realtime, h]

/-- Witness for C10_no_emeter_skips_validation: the sample strip (feature
TIM, one outlet) at the wildly out-of-range index 99. -/
theorem C10_no_emeter_skips_validation_witness :
    SmartStrip.get_emeter_realtime sampleStrip1 (fun _ => 7) 99 =
      (.ok .unavailable, []) :=
  C10_no_emeter_skips_validation sampleStrip1 (fun _ => 7) 99 (by decide)

end PyHS100
